import Mathlib

/-!
Verification development for the CI/CD orchestration module
(`modules_cicd_orchestration.py`) of the CloudIDP dashboard.

The file gives a shallow embedding of the pipeline-provisioning workflow
(`create_pipeline`), of the quick-create form submission handler, and of
`get_buildspec`, and proves the testable properties of the specification
against it.

Modelling conventions:
- each remote SDK call is recorded as an `Event.call` in an explicit trace;
  its outcome (success or a raised exception) is supplied by a `CloudEnv`
  record, one field per call site;
- Python exceptions are values `Exc` with a `kind` (the exception class,
  as far as the code distinguishes classes) and a `msg` (what `str(e)`
  yields);
- UI effects (`st.progress`, `status.text`, `time.sleep`) are recorded as
  trace events; sleeps are recorded in tenths of a second;
- `iam_client.get_role` returns a nested dict of which the code only
  uses the role Arn; the embedding returns the Arn string;
- `json.dumps` of the assume-role policy document is represented by the
  structured document itself (serialization is irrelevant to the claims);
- `int(time.time())` is passed in as the `ts : Nat` argument.
-/

namespace CICD

/-- Exception classes that the code distinguishes with dedicated
`except` clauses; every other exception is `generic`. -/
inductive ExcKind : Type
  | entityAlreadyExists
  | resourceAlreadyExists
  | repositoryNameExists
  | pipelineNameInUse
  | generic
  deriving DecidableEq, Repr

/-- A raised Python exception: its class kind and its `str(e)` text. -/
structure Exc : Type where
  kind : ExcKind
  msg : String
  deriving DecidableEq, Repr

/-- The assume-role policy documents built with `json.dumps` in the code. -/
structure PolicyPrincipal : Type where
  Service : String
  deriving DecidableEq, Repr

structure PolicyStatement : Type where
  Effect : String
  Principal : PolicyPrincipal
  Action : String
  deriving DecidableEq, Repr

structure AssumeRoleDoc : Type where
  Version : String
  Statement : List PolicyStatement
  deriving DecidableEq, Repr

/-- Arguments of `cb_client.create_project`: the `source` dict. -/
structure BuildSource : Type where
  type : String
  buildspec : String
  deriving DecidableEq, Repr

/-- Arguments of `cb_client.create_project`: the `artifacts` dict. -/
structure BuildArtifacts : Type where
  type : String
  deriving DecidableEq, Repr

/-- Arguments of `cb_client.create_project`: the `environment` dict. -/
structure BuildEnvironment : Type where
  type : String
  image : String
  computeType : String
  deriving DecidableEq, Repr

/-- The `actionTypeId` dict of a pipeline stage action. -/
structure ActionTypeId : Type where
  category : String
  owner : String
  provider : String
  version : String
  deriving DecidableEq, Repr

/-- The `configuration` dict of a stage action.  The Source action carries
`RepositoryName`, `BranchName`, `PollForSourceChanges`; the Build action
carries `ProjectName`. -/
inductive ActionConfiguration : Type
  | sourceCfg (RepositoryName : Option String) (BranchName : Option String)
      (PollForSourceChanges : Bool)
  | buildCfg (ProjectName : String)
  deriving DecidableEq, Repr

/-- One action of a pipeline stage.  Artifact lists record the `name`
fields of the `inputArtifacts` / `outputArtifacts` dicts; the Source
action, which has no `inputArtifacts` key, gets the empty list. -/
structure StageAction : Type where
  name : String
  actionTypeId : ActionTypeId
  configuration : ActionConfiguration
  inputArtifacts : List String
  outputArtifacts : List String
  deriving DecidableEq, Repr

/-- One stage of the pipeline definition. -/
structure Stage : Type where
  name : String
  actions : List StageAction
  deriving DecidableEq, Repr

/-- The `artifactStore` dict of the pipeline definition. -/
structure ArtifactStore : Type where
  type : String
  location : String
  deriving DecidableEq, Repr

/-- The `pipeline` dict passed to `cp_client.create_pipeline`. -/
structure PipelineDecl : Type where
  name : String
  roleArn : String
  artifactStore : ArtifactStore
  stages : List Stage
  deriving DecidableEq, Repr

/-- A remote SDK call together with its arguments, as issued by the code. -/
inductive RemoteCall : Type
  | iam_create_role (RoleName : String) (AssumeRolePolicyDocument : AssumeRoleDoc)
  | iam_attach_role_policy (RoleName : String) (PolicyArn : String)
  | s3_create_bucket (Bucket : String) (LocationConstraint : Option String)
  | s3_put_bucket_versioning (Bucket : String) (Status : String)
  | iam_get_role (RoleName : String)
  | cb_create_project (name : String) (source : BuildSource)
      (artifacts : BuildArtifacts) (environment : BuildEnvironment)
      (serviceRole : String)
  | codecommit_create_repository (repositoryName : Option String)
      (repositoryDescription : String)
  | cp_create_pipeline (pipeline : PipelineDecl)
  deriving DecidableEq, Repr

/-- One observable effect of a run of `create_pipeline`. -/
inductive Event : Type
  | progressInit
  | statusInit
  | statusText (s : String)
  | progressUpd (n : Nat)
  | sleepDs (tenths : Nat)
  | call (c : RemoteCall)
  | progressClear
  | statusClear
  deriving DecidableEq, Repr

/-- Recognizes the final `cp_client.create_pipeline` call event,
irrespective of its payload. -/
def Event.isCpCreate : Event → Bool
  | Event.call (RemoteCall.cp_create_pipeline _) => true
  | _ => false

/-- Recognizes a `codecommit_client.create_repository` call event. -/
def Event.isRepoCreate : Event → Bool
  | Event.call (RemoteCall.codecommit_create_repository _ _) => true
  | _ => false

/-- Extracts the percentage of a `progress.progress(n)` update. -/
def Event.progressValue : Event → Option Nat
  | Event.progressUpd n => some n
  | _ => none

/-- Outcome of each remote call site, supplied by the surrounding cloud:
`none` means the call succeeds, `some e` means it raises `e`.  The two
`get_role` sites instead either return a role Arn or raise. -/
structure CloudEnv : Type where
  create_pipeline_role : Option Exc
  attach_pipeline_policy : Option Exc
  create_bucket : Option Exc
  put_bucket_versioning : Option Exc
  create_build_role : Option Exc
  attach_build_policy : Option Exc
  get_build_role : Except Exc String
  create_project : Option Exc
  create_repository : Option Exc
  get_pipeline_role : Except Exc String
  cp_create_pipeline : Option Exc

/-- Control outcome of a fragment of the `try` body of `create_pipeline`:
normal value, early `return` from inside the body, or an exception
propagating towards the outer `except Exception` handler. -/
inductive StepOut (α : Type) : Type
  | ok (a : α)
  | ret (r : Bool × String)
  | exn (e : Exc)
  deriving DecidableEq

/-- A fragment of the body: the events it emits plus its control outcome. -/
abbrev StepM (α : Type) : Type := List Event × StepOut α

/-- Sequencing of fragments: events accumulate; `ret` and `exn`
short-circuit the continuation. -/
def stepBind {α β : Type} : StepM α → (α → StepM β) → StepM β
  | (tr, StepOut.ok a), f => (tr ++ (f a).1, (f a).2)
  | (tr, StepOut.ret r), _ => (tr, StepOut.ret r)
  | (tr, StepOut.exn e), _ => (tr, StepOut.exn e)

/-- Emit UI events and continue. -/
def emitOk (evs : List Event) : StepM Unit := (evs, StepOut.ok ())

/-- A remote call with no useful return value: the call is always
recorded; the environment decides whether it raises. -/
def remote (c : RemoteCall) : Option Exc → StepM Unit
  | none => ([Event.call c], StepOut.ok ())
  | some e => ([Event.call c], StepOut.exn e)

/-- A remote call returning a string (the `get_role` sites, reduced to
the Arn the code extracts). -/
def remoteGet (c : RemoteCall) : Except Exc String → StepM String
  | Except.ok a => ([Event.call c], StepOut.ok a)
  | Except.error e => ([Event.call c], StepOut.exn e)

/-- A Python `try`/`except` around a fragment: if the fragment raises and
the handler applies, the handler's fragment runs; otherwise the exception
keeps propagating. -/
def tryCatch {α : Type} : StepM α → (Exc → Option (StepM α)) → StepM α
  | (tr, StepOut.exn e), h =>
      match h e with
      | some y => (tr ++ y.1, y.2)
      | none => (tr, StepOut.exn e)
  | x, _ => x

/-- `except SpecificException: pass` — swallow exactly one kind. -/
def passOn (k : ExcKind) : Exc → Option (StepM Unit) :=
  fun e => if e.kind = k then some ([], StepOut.ok ()) else none

/-- `except Exception: pass` — swallow everything (the bucket step). -/
def passAll : Exc → Option (StepM Unit) :=
  fun _ => some ([], StepOut.ok ())

/-- `except PipelineNameInUseException: return False, msg`. -/
def returnOn (k : ExcKind) (r : Bool × String) : Exc → Option (StepM Unit) :=
  fun e => if e.kind = k then some ([], StepOut.ret r) else none

/-- The trust document for the pipeline role (`codepipeline.amazonaws.com`). -/
def pipelineAssumeDoc : AssumeRoleDoc :=
  { Version := "2012-10-17",
    Statement := [{ Effect := "Allow",
                    Principal := { Service := "codepipeline.amazonaws.com" },
                    Action := "sts:AssumeRole" }] }

/-- The trust document for the build role (`codebuild.amazonaws.com`). -/
def buildAssumeDoc : AssumeRoleDoc :=
  { Version := "2012-10-17",
    Statement := [{ Effect := "Allow",
                    Principal := { Service := "codebuild.amazonaws.com" },
                    Action := "sts:AssumeRole" }] }

/-- The `source_config` dict assembled by the form handler. -/
structure SourceConfig : Type where
  repo_name : Option String
  branch : Option String
  create_repo : Bool
  deriving DecidableEq, Repr

/-- The bucket name: the pipeline name, the literal "-artifacts-", and
the integer timestamp, concatenated as in the f-string of the code. -/
def bucketNameOf (pipeline_name : String) (ts : Nat) : String :=
  pipeline_name ++ "-artifacts-" ++ toString ts

/-- The three buildspecs of `get_buildspec`. -/
def buildspecPythonApp : String :=
  "version: 0.2\nphases:\n  install:\n    runtime-versions:\n      python: 3.11\n  build:\n    commands:\n      - pip install -r requirements.txt\n      - python -m pytest || true\nartifacts:\n  files:\n    - \x27**/*\x27\n"

def buildspecNodejsApi : String :=
  "version: 0.2\nphases:\n  install:\n    runtime-versions:\n      nodejs: 18\n  build:\n    commands:\n      - npm install\n      - npm test || true\nartifacts:\n  files:\n    - \x27**/*\x27\n"

def buildspecStaticSite : String :=
  "version: 0.2\nphases:\n  build:\n    commands:\n      - echo \"Building static site\"\nartifacts:\n  files:\n    - \x27**/*\x27\n"

/-- The `buildspecs` dict literal of `get_buildspec`, as an association
list in the order the keys are written. -/
def buildspecs : List (String × String) :=
  [("python-app", buildspecPythonApp),
   ("nodejs-api", buildspecNodejsApi),
   ("static-site", buildspecStaticSite)]

/-- The function `get_buildspec`: a dict lookup whose default is the
static-site buildspec. -/
def get_buildspec (template_type : String) : String :=
  match buildspecs.lookup template_type with
  | some b => b
  | none => buildspecStaticSite

/-- Step 1 of `create_pipeline`: status text, sleep, pipeline-role
creation guarded by `except EntityAlreadyExistsException: pass`, then
`progress.progress(20)`. -/
def step1 (pipeline_name : String) (env : CloudEnv) : StepM Unit :=
  stepBind (emitOk [Event.statusText "1/5: Creating IAM roles...", Event.sleepDs 10])
    (fun _ =>
  stepBind (tryCatch
      (stepBind (remote (RemoteCall.iam_create_role (pipeline_name ++ "-pipeline-role")
            pipelineAssumeDoc) env.create_pipeline_role) (fun _ =>
       stepBind (remote (RemoteCall.iam_attach_role_policy (pipeline_name ++ "-pipeline-role")
            "arn:aws:iam::aws:policy/AWSCodePipelineFullAccess") env.attach_pipeline_policy)
         (fun _ =>
       emitOk [Event.sleepDs 20])))
      (passOn ExcKind.entityAlreadyExists)) (fun _ =>
  emitOk [Event.progressUpd 20]))

/-- Step 2 of `create_pipeline`: the artifact bucket.  The whole block is
guarded by `except Exception: pass`; the bucket name (still needed by
step 5) is the value of this fragment.  In `us-east-1` the call carries
no `CreateBucketConfiguration`. -/
def step2 (pipeline_name region : String) (ts : Nat) (env : CloudEnv) : StepM String :=
  stepBind (emitOk [Event.statusText "2/5: Creating artifact bucket..."]) (fun _ =>
  stepBind (tryCatch
      (stepBind (remote (RemoteCall.s3_create_bucket (bucketNameOf pipeline_name ts)
            (if region = "us-east-1" then none else some region)) env.create_bucket)
        (fun _ =>
       remote (RemoteCall.s3_put_bucket_versioning (bucketNameOf pipeline_name ts)
            "Enabled") env.put_bucket_versioning))
      passAll) (fun _ =>
  stepBind (emitOk [Event.progressUpd 40]) (fun _ =>
  ([], StepOut.ok (bucketNameOf pipeline_name ts)))))

/-- Step 3 of `create_pipeline`: build role (tolerating
`EntityAlreadyExistsException`), unguarded `get_role`, and the CodeBuild
project (tolerating `ResourceAlreadyExistsException`), then
`progress.progress(60)`. -/
def step3 (pipeline_name template_type : String) (env : CloudEnv) : StepM Unit :=
  stepBind (emitOk [Event.statusText "3/5: Creating CodeBuild project..."]) (fun _ =>
  stepBind (tryCatch
      (stepBind (remote (RemoteCall.iam_create_role (pipeline_name ++ "-build-role")
            buildAssumeDoc) env.create_build_role) (fun _ =>
       stepBind (remote (RemoteCall.iam_attach_role_policy (pipeline_name ++ "-build-role")
            "arn:aws:iam::aws:policy/AWSCodeBuildAdminAccess") env.attach_build_policy)
         (fun _ =>
       emitOk [Event.sleepDs 20])))
      (passOn ExcKind.entityAlreadyExists)) (fun _ =>
  stepBind (remoteGet (RemoteCall.iam_get_role (pipeline_name ++ "-build-role"))
      env.get_build_role) (fun build_role_arn =>
  stepBind (tryCatch
      (remote (RemoteCall.cb_create_project (pipeline_name ++ "-build")
          { type := "CODEPIPELINE", buildspec := get_buildspec template_type }
          { type := "CODEPIPELINE" }
          { type := "LINUX_CONTAINER", image := "aws/codebuild/standard:7.0",
            computeType := "BUILD_GENERAL1_SMALL" }
          build_role_arn) env.create_project)
      (passOn ExcKind.resourceAlreadyExists)) (fun _ =>
  emitOk [Event.progressUpd 60]))))

/-- Step 4 of `create_pipeline`: the optional repository, only when the
source provider is CodeCommit and a new repository was requested,
tolerating `RepositoryNameExistsException`; then `progress.progress(80)`
unconditionally. -/
def step4 (pipeline_name source_provider : String) (source_config : SourceConfig)
    (env : CloudEnv) : StepM Unit :=
  stepBind
    (if source_provider = "CodeCommit" ∧ source_config.create_repo = true then
      stepBind (emitOk [Event.statusText "4/5: Creating repository..."]) (fun _ =>
      tryCatch
        (remote (RemoteCall.codecommit_create_repository source_config.repo_name
            ("Repository for " ++ pipeline_name)) env.create_repository)
        (passOn ExcKind.repositoryNameExists))
     else ([], StepOut.ok ())) (fun _ =>
  emitOk [Event.progressUpd 80])

/-- The `stages` list literal of step 5: a Source stage then a Build
stage, each with a single action. -/
def mkStages (pipeline_name : String) (source_config : SourceConfig) : List Stage :=
  [{ name := "Source",
     actions := [{ name := "SourceAction",
                   actionTypeId := { category := "Source", owner := "AWS",
                                     provider := "CodeCommit", version := "1" },
                   configuration := ActionConfiguration.sourceCfg
                     source_config.repo_name source_config.branch false,
                   inputArtifacts := [],
                   outputArtifacts := ["SourceOutput"] }] },
   { name := "Build",
     actions := [{ name := "BuildAction",
                   actionTypeId := { category := "Build", owner := "AWS",
                                     provider := "CodeBuild", version := "1" },
                   configuration := ActionConfiguration.buildCfg (pipeline_name ++ "-build"),
                   inputArtifacts := ["SourceOutput"],
                   outputArtifacts := ["BuildOutput"] }] }]

/-- The `pipeline` dict passed to `cp_client.create_pipeline`. -/
def mkPipelineDecl (pipeline_name roleArn bucket : String)
    (source_config : SourceConfig) : PipelineDecl :=
  { name := pipeline_name,
    roleArn := roleArn,
    artifactStore := { type := "S3", location := bucket },
    stages := mkStages pipeline_name source_config }

/-- Step 5 of `create_pipeline`: unguarded `get_role` for the pipeline
role, the final `cp_client.create_pipeline` call whose
`PipelineNameInUseException` handler returns
`(False, "Pipeline name already exists")`, then the completion events and
`return True, "Success"`. -/
def step5 (pipeline_name : String) (source_config : SourceConfig) (bucket : String)
    (env : CloudEnv) : StepM (Bool × String) :=
  stepBind (emitOk [Event.statusText "5/5: Creating pipeline..."]) (fun _ =>
  stepBind (remoteGet (RemoteCall.iam_get_role (pipeline_name ++ "-pipeline-role"))
      env.get_pipeline_role) (fun pipeline_role_arn =>
  stepBind (tryCatch
      (remote (RemoteCall.cp_create_pipeline
          (mkPipelineDecl pipeline_name pipeline_role_arn bucket source_config))
        env.cp_create_pipeline)
      (returnOn ExcKind.pipelineNameInUse (false, "Pipeline name already exists")))
    (fun _ =>
  stepBind (emitOk [Event.progressUpd 100, Event.statusText "✅ Complete!",
      Event.sleepDs 5, Event.progressClear, Event.statusClear]) (fun _ =>
  ([], StepOut.ok (true, "Success"))))))

/-- The body of the outer `try` of `create_pipeline`: widget creation,
then the five steps in order. -/
def create_pipeline_body (pipeline_name template_type source_provider : String)
    (source_config : SourceConfig) (deploy_target region : String) (ts : Nat)
    (env : CloudEnv) : StepM (Bool × String) :=
  stepBind (emitOk [Event.progressInit, Event.statusInit]) (fun _ =>
  stepBind (step1 pipeline_name env) (fun _ =>
  stepBind (step2 pipeline_name region ts env) (fun bucket =>
  stepBind (step3 pipeline_name template_type env) (fun _ =>
  stepBind (step4 pipeline_name source_provider source_config env) (fun _ =>
  step5 pipeline_name source_config bucket env)))))

/-- `create_pipeline`: the body wrapped in the outer
`except Exception as e: return False, str(e)` handler.  The result is the
emitted event trace together with the returned `(success, message)` pair. -/
def create_pipeline (pipeline_name template_type source_provider : String)
    (source_config : SourceConfig) (deploy_target region : String) (ts : Nat)
    (env : CloudEnv) : List Event × (Bool × String) :=
  match create_pipeline_body pipeline_name template_type source_provider
      source_config deploy_target region ts env with
  | (tr, StepOut.ok r) => (tr, r)
  | (tr, StepOut.ret r) => (tr, r)
  | (tr, StepOut.exn e) => (tr, (false, e.msg))

/-- Outcome of one submission of the quick-create form. -/
inductive SubmitOutcome : Type
  | validationError (msg : String)
  | completed (success : Bool) (message : String)

/-- The submission branch of `render_quick_create`: the two validation
checks (`not pipeline_name`; GitHub with missing URL or token), and
otherwise the call to `create_pipeline` with the `source_config` dict
assembled from the form fields.  Absent text fields are the empty
string, which is falsy in Python. -/
def handle_submission (pipeline_name template_type source_provider repo_name
    repo_url branch_name github_token : String) (create_new : Bool)
    (deploy_target region : String) (ts : Nat) (env : CloudEnv) :
    List Event × SubmitOutcome :=
  if pipeline_name = "" then
    ([], SubmitOutcome.validationError "Pipeline name required")
  else if source_provider = "GitHub" ∧ (repo_url = "" ∨ github_token = "") then
    ([], SubmitOutcome.validationError "GitHub URL and token required")
  else
    let sc : SourceConfig :=
      { repo_name := if source_provider = "CodeCommit" then some repo_name else none,
        branch := if source_provider ≠ "S3" then some branch_name else none,
        create_repo := if source_provider = "CodeCommit" then create_new else false }
    let r := create_pipeline pipeline_name template_type source_provider sc
        deploy_target region ts env
    (r.1, SubmitOutcome.completed r.2.1 r.2.2)

/-- An environment in which every remote call succeeds; the two
`get_role` calls return the given Arns. -/
def envAllOk (arnPipeline arnBuild : String) : CloudEnv :=
  { create_pipeline_role := none,
    attach_pipeline_policy := none,
    create_bucket := none,
    put_bucket_versioning := none,
    create_build_role := none,
    attach_build_policy := none,
    get_build_role := Except.ok arnBuild,
    create_project := none,
    create_repository := none,
    get_pipeline_role := Except.ok arnPipeline,
    cp_create_pipeline := none }

/-! Rewriting lemmas for the sequencing combinators. -/

@[simp] theorem stepBind_ok {α β : Type} (tr : List Event) (a : α) (f : α → StepM β) :
    stepBind (tr, StepOut.ok a) f = (tr ++ (f a).1, (f a).2) := rfl

@[simp] theorem stepBind_ret {α β : Type} (tr : List Event) (r : Bool × String)
    (f : α → StepM β) : stepBind (tr, StepOut.ret r) f = (tr, StepOut.ret r) := rfl

@[simp] theorem stepBind_exn {α β : Type} (tr : List Event) (e : Exc)
    (f : α → StepM β) : stepBind (tr, StepOut.exn e) f = (tr, StepOut.exn e) := rfl

@[simp] theorem tryCatch_ok {α : Type} (tr : List Event) (a : α)
    (h : Exc → Option (StepM α)) : tryCatch (tr, StepOut.ok a) h = (tr, StepOut.ok a) := rfl

@[simp] theorem tryCatch_ret {α : Type} (tr : List Event) (r : Bool × String)
    (h : Exc → Option (StepM α)) : tryCatch (tr, StepOut.ret r) h = (tr, StepOut.ret r) := rfl

theorem tryCatch_exn {α : Type} (tr : List Event) (e : Exc)
    (h : Exc → Option (StepM α)) :
    tryCatch (tr, StepOut.exn e) h =
      match h e with
      | some y => (tr ++ y.1, y.2)
      | none => (tr, StepOut.exn e) := rfl

/-! Infrastructure for the universal claims: which traces contain the
final `cp_client.create_pipeline` call, and the possible outcome shapes
of each provisioning step under an arbitrary environment. -/

/-- The trace contains no `cp_client.create_pipeline` call. -/
def NoCp (tr : List Event) : Prop :=
  (tr.all fun ev => !ev.isCpCreate) = true

theorem NoCp.append {l1 l2 : List Event} (h1 : NoCp l1) (h2 : NoCp l2) :
    NoCp (l1 ++ l2) := by
  simp only [NoCp, List.all_append, Bool.and_eq_true] at *
  exact ⟨h1, h2⟩

theorem NoCp.not_mem {tr : List Event} (h : NoCp tr) (v : PipelineDecl) :
    Event.call (RemoteCall.cp_create_pipeline v) ∉ tr := by
  intro hm
  have := List.all_eq_true.mp h _ hm
  simp [Event.isCpCreate] at this

/-- Dropping a satisfied prefix: if every element of `l1` passes `p`,
`dropWhile p` over `l1 ++ l2` continues in `l2`. -/
theorem dropWhile_append_all {p : Event → Bool} {l1 l2 : List Event}
    (h : l1.all p = true) : (l1 ++ l2).dropWhile p = l2.dropWhile p := by
  induction l1 with
  | nil => rfl
  | cons a l ih =>
      simp only [List.all_cons, Bool.and_eq_true] at h
      simp [List.dropWhile_cons, h.1, ih h.2]

/-- An outcome is within what a `pass`-style handler for kind `k`
tolerates: success, or an exception of exactly that kind. -/
def tolerated (k : ExcKind) : Option Exc → Prop
  | none => True
  | some e => e.kind = k

/-- The returned trace of `create_pipeline` is the trace of its body:
the outer exception handler only shapes the returned pair. -/
theorem create_pipeline_fst (pipeline_name template_type source_provider : String)
    (source_config : SourceConfig) (deploy_target region : String) (ts : Nat)
    (env : CloudEnv) :
    (create_pipeline pipeline_name template_type source_provider source_config
        deploy_target region ts env).1
      = (create_pipeline_body pipeline_name template_type source_provider
        source_config deploy_target region ts env).1 := by
  unfold create_pipeline
  rcases h : create_pipeline_body pipeline_name template_type source_provider
      source_config deploy_target region ts env with ⟨tr, o⟩
  cases o <;> simp

/-- Step 1 either continues normally or aborts with an exception, and
its trace never contains the final pipeline-creation call. -/
theorem step1_shape (pn : String) (env : CloudEnv) :
    ((step1 pn env).2 = StepOut.ok () ∨ ∃ e, (step1 pn env).2 = StepOut.exn e) ∧
    NoCp (step1 pn env).1 := by
  unfold step1
  rcases h1 : env.create_pipeline_role with _ | e1
  · rcases h2 : env.attach_pipeline_policy with _ | e2
    · exact ⟨Or.inl (by simp [emitOk, remote]), by simp [emitOk, remote]; rfl⟩
    · by_cases hk : e2.kind = ExcKind.entityAlreadyExists <;>
        constructor <;>
          simp [emitOk, remote, tryCatch, passOn, hk, NoCp, Event.isCpCreate]
  · by_cases hk : e1.kind = ExcKind.entityAlreadyExists <;>
      constructor <;>
        simp [emitOk, remote, tryCatch, passOn, hk, NoCp, Event.isCpCreate]

/-- Step 2 always continues (its `except Exception` swallows everything)
and always yields the timestamped bucket name; its trace has no
pipeline-creation call. -/
theorem step2_shape (pn region : String) (ts : Nat) (env : CloudEnv) :
    (step2 pn region ts env).2 = StepOut.ok (bucketNameOf pn ts) ∧
    NoCp (step2 pn region ts env).1 := by
  unfold step2
  rcases h1 : env.create_bucket with _ | e1
  · rcases h2 : env.put_bucket_versioning with _ | e2 <;>
      constructor <;>
        simp [emitOk, remote, tryCatch, passAll, NoCp, Event.isCpCreate]
  · constructor <;>
      simp [emitOk, remote, tryCatch, passAll, NoCp, Event.isCpCreate]

/-- Step 3 either continues normally or aborts with an exception; its
trace has no pipeline-creation call. -/
theorem step3_shape (pn tt : String) (env : CloudEnv) :
    ((step3 pn tt env).2 = StepOut.ok () ∨ ∃ e, (step3 pn tt env).2 = StepOut.exn e) ∧
    NoCp (step3 pn tt env).1 := by
  unfold step3
  rcases h1 : env.create_build_role with _ | e1
  · rcases h2 : env.attach_build_policy with _ | e2
    · rcases h3 : env.get_build_role with e3 | arn
      · constructor <;>
          simp [emitOk, remote, remoteGet, tryCatch, passOn, NoCp, Event.isCpCreate]
      · rcases h4 : env.create_project with _ | e4
        · constructor <;>
            simp [emitOk, remote, remoteGet, tryCatch, passOn, NoCp, Event.isCpCreate]
        · by_cases hk : e4.kind = ExcKind.resourceAlreadyExists <;>
            constructor <;>
              simp [emitOk, remote, remoteGet, tryCatch, passOn, hk, NoCp, Event.isCpCreate]
    · by_cases hk : e2.kind = ExcKind.entityAlreadyExists
      · rcases h3 : env.get_build_role with e3 | arn
        · constructor <;>
            simp [emitOk, remote, remoteGet, tryCatch, passOn, hk, NoCp, Event.isCpCreate]
        · rcases h4 : env.create_project with _ | e4
          · constructor <;>
              simp [emitOk, remote, remoteGet, tryCatch, passOn, hk, NoCp, Event.isCpCreate]
          · by_cases hk4 : e4.kind = ExcKind.resourceAlreadyExists <;>
              constructor <;>
                simp [emitOk, remote, remoteGet, tryCatch, passOn, hk, hk4, NoCp,
                  Event.isCpCreate]
      · constructor <;>
          simp [emitOk, remote, remoteGet, tryCatch, passOn, hk, NoCp, Event.isCpCreate]
  · by_cases hk : e1.kind = ExcKind.entityAlreadyExists
    · rcases h3 : env.get_build_role with e3 | arn
      · constructor <;>
          simp [emitOk, remote, remoteGet, tryCatch, passOn, hk, NoCp, Event.isCpCreate]
      · rcases h4 : env.create_project with _ | e4
        · constructor <;>
            simp [emitOk, remote, remoteGet, tryCatch, passOn, hk, NoCp, Event.isCpCreate]
        · by_cases hk4 : e4.kind = ExcKind.resourceAlreadyExists <;>
            constructor <;>
              simp [emitOk, remote, remoteGet, tryCatch, passOn, hk, hk4, NoCp,
                Event.isCpCreate]
    · constructor <;>
        simp [emitOk, remote, remoteGet, tryCatch, passOn, hk, NoCp, Event.isCpCreate]

/-- Step 4 either continues normally or aborts with an exception; its
trace has no pipeline-creation call. -/
theorem step4_shape (pn sp : String) (sc : SourceConfig) (env : CloudEnv) :
    ((step4 pn sp sc env).2 = StepOut.ok () ∨ ∃ e, (step4 pn sp sc env).2 = StepOut.exn e) ∧
    NoCp (step4 pn sp sc env).1 := by
  unfold step4
  by_cases hif : sp = "CodeCommit" ∧ sc.create_repo = true
  · rcases h1 : env.create_repository with _ | e1
    · constructor <;>
        simp [hif, emitOk, remote, tryCatch, passOn, NoCp, Event.isCpCreate]
    · by_cases hk : e1.kind = ExcKind.repositoryNameExists <;>
        constructor <;>
          simp [hif, emitOk, remote, tryCatch, passOn, hk, NoCp, Event.isCpCreate]
  · constructor <;> simp [hif, emitOk, NoCp, Event.isCpCreate]

/-- The events of step 5 preceding the pipeline-creation call. -/
def step5pre (pn : String) : List Event :=
  [Event.statusText "5/5: Creating pipeline...",
   Event.call (RemoteCall.iam_get_role (pn ++ "-pipeline-role"))]

/-- The completion events of step 5 after a successful creation call. -/
def step5post : List Event :=
  [Event.progressUpd 100, Event.statusText "✅ Complete!", Event.sleepDs 5,
   Event.progressClear, Event.statusClear]

/-- The full case analysis of step 5: the `get_role` call may raise;
otherwise the pipeline-creation call is issued exactly once, and its
outcome is success, the tolerated name-in-use early return, or a
propagating exception. -/
theorem step5_shape (pn : String) (sc : SourceConfig) (bucket : String)
    (env : CloudEnv) :
    (∃ e, env.get_pipeline_role = Except.error e ∧
      step5 pn sc bucket env = (step5pre pn, StepOut.exn e)) ∨
    (∃ arn, env.get_pipeline_role = Except.ok arn ∧
      ((env.cp_create_pipeline = none ∧
        step5 pn sc bucket env
          = (step5pre pn
              ++ Event.call (RemoteCall.cp_create_pipeline
                  (mkPipelineDecl pn arn bucket sc)) :: step5post,
             StepOut.ok (true, "Success"))) ∨
       (∃ e, env.cp_create_pipeline = some e ∧ e.kind = ExcKind.pipelineNameInUse ∧
        step5 pn sc bucket env
          = (step5pre pn
              ++ [Event.call (RemoteCall.cp_create_pipeline
                  (mkPipelineDecl pn arn bucket sc))],
             StepOut.ret (false, "Pipeline name already exists"))) ∨
       (∃ e, env.cp_create_pipeline = some e ∧ e.kind ≠ ExcKind.pipelineNameInUse ∧
        step5 pn sc bucket env
          = (step5pre pn
              ++ [Event.call (RemoteCall.cp_create_pipeline
                  (mkPipelineDecl pn arn bucket sc))],
             StepOut.exn e)))) := by
  unfold step5
  rcases hg : env.get_pipeline_role with e | arn
  · exact Or.inl ⟨e, rfl, by simp [emitOk, remoteGet, step5pre]⟩
  · refine Or.inr ⟨arn, rfl, ?_⟩
    rcases hc : env.cp_create_pipeline with _ | e
    · exact Or.inl ⟨rfl, by
        simp [emitOk, remote, remoteGet, tryCatch, step5pre, step5post]⟩
    · by_cases hk : e.kind = ExcKind.pipelineNameInUse
      · exact Or.inr (Or.inl ⟨e, rfl, hk, by
          simp [emitOk, remote, remoteGet, tryCatch, returnOn, hk, step5pre]⟩)
      · exact Or.inr (Or.inr ⟨e, rfl, hk, by
          simp [emitOk, remote, remoteGet, tryCatch, returnOn, hk, step5pre]⟩)

/-- Rewriting `stepBind` when the first fragment's outcome is known to
be normal. -/
theorem stepBind_of_ok {α β : Type} {x : StepM α} {a : α} {f : α → StepM β}
    (h : x.2 = StepOut.ok a) : stepBind x f = (x.1 ++ (f a).1, (f a).2) := by
  rcases x with ⟨tr, o⟩
  cases o with
  | ok b => simp only [Prod.snd, StepOut.ok.injEq] at h; subst h; rfl
  | ret r => simp at h
  | exn e => simp at h

/-- Rewriting `stepBind` when the first fragment raises. -/
theorem stepBind_of_exn {α β : Type} {x : StepM α} {e : Exc} {f : α → StepM β}
    (h : x.2 = StepOut.exn e) : stepBind x f = (x.1, StepOut.exn e) := by
  rcases x with ⟨tr, o⟩
  cases o with
  | ok b => simp at h
  | ret r => simp at h
  | exn e2 => simp only [Prod.snd, StepOut.exn.injEq] at h; subst h; rfl

/-- Rewriting `stepBind` when the first fragment returns early. -/
theorem stepBind_of_ret {α β : Type} {x : StepM α} {r : Bool × String}
    {f : α → StepM β} (h : x.2 = StepOut.ret r) :
    stepBind x f = (x.1, StepOut.ret r) := by
  rcases x with ⟨tr, o⟩
  cases o with
  | ok b => simp at h
  | ret r2 => simp only [Prod.snd, StepOut.ret.injEq] at h; subst h; rfl
  | exn e => simp at h

/-- Master case analysis of a full run of `create_pipeline`: either some
prerequisite aborts before the pipeline-creation call is ever issued
(the result carries the raw exception text and the trace has no such
call), or the call is issued exactly once after a call-free prefix, and
the run ends according to the call's outcome — success, the tolerated
name-in-use early return, or the raw text of any other exception. -/
theorem create_pipeline_cases (pn tt sp : String) (sc : SourceConfig)
    (dt region : String) (ts : Nat) (env : CloudEnv) :
    (∃ tr e, create_pipeline pn tt sp sc dt region ts env = (tr, (false, Exc.msg e)) ∧
      NoCp tr) ∨
    (∃ pre arn, NoCp pre ∧ env.cp_create_pipeline = none ∧
      create_pipeline pn tt sp sc dt region ts env
        = (pre ++ Event.call (RemoteCall.cp_create_pipeline
            (mkPipelineDecl pn arn (bucketNameOf pn ts) sc)) :: step5post,
           (true, "Success"))) ∨
    (∃ pre arn e, NoCp pre ∧ env.cp_create_pipeline = some e ∧
      e.kind = ExcKind.pipelineNameInUse ∧
      create_pipeline pn tt sp sc dt region ts env
        = (pre ++ [Event.call (RemoteCall.cp_create_pipeline
            (mkPipelineDecl pn arn (bucketNameOf pn ts) sc))],
           (false, "Pipeline name already exists"))) ∨
    (∃ pre arn e, NoCp pre ∧ env.cp_create_pipeline = some e ∧
      e.kind ≠ ExcKind.pipelineNameInUse ∧
      create_pipeline pn tt sp sc dt region ts env
        = (pre ++ [Event.call (RemoteCall.cp_create_pipeline
            (mkPipelineDecl pn arn (bucketNameOf pn ts) sc))],
           (false, Exc.msg e))) := by
  obtain ⟨h1o, h1n⟩ := step1_shape pn env
  obtain ⟨h2o, h2n⟩ := step2_shape pn region ts env
  obtain ⟨h3o, h3n⟩ := step3_shape pn tt env
  obtain ⟨h4o, h4n⟩ := step4_shape pn sp sc env
  rcases h1o with h1 | ⟨e1, h1⟩
  · rcases h3o with h3 | ⟨e3, h3⟩
    · rcases h4o with h4 | ⟨e4, h4⟩
      · rcases step5_shape pn sc (bucketNameOf pn ts) env with ⟨e5, hg5, h5⟩ |
          ⟨arn, hg5, hcase⟩
        · refine Or.inl ⟨[Event.progressInit, Event.statusInit]
            ++ ((step1 pn env).1 ++ ((step2 pn region ts env).1
            ++ ((step3 pn tt env).1 ++ ((step4 pn sp sc env).1 ++ step5pre pn)))),
            e5, ?_, ?_⟩
          · simp [create_pipeline, create_pipeline_body, emitOk,
              stepBind_of_ok h1, stepBind_of_ok h2o, stepBind_of_ok h3,
              stepBind_of_ok h4, h5]
          · exact NoCp.append (by rfl) (NoCp.append h1n (NoCp.append h2n
              (NoCp.append h3n (NoCp.append h4n (by rfl)))))
        · rcases hcase with ⟨hcp, h5⟩ | ⟨e5, hcp, hk5, h5⟩ | ⟨e5, hcp, hk5, h5⟩
          · refine Or.inr (Or.inl ⟨[Event.progressInit, Event.statusInit]
              ++ ((step1 pn env).1 ++ ((step2 pn region ts env).1
              ++ ((step3 pn tt env).1 ++ ((step4 pn sp sc env).1 ++ step5pre pn)))),
              arn, ?_, hcp, ?_⟩)
            · exact NoCp.append (by rfl) (NoCp.append h1n (NoCp.append h2n
                (NoCp.append h3n (NoCp.append h4n (by rfl)))))
            · simp [create_pipeline, create_pipeline_body, emitOk,
                stepBind_of_ok h1, stepBind_of_ok h2o, stepBind_of_ok h3,
                stepBind_of_ok h4, h5]
          · refine Or.inr (Or.inr (Or.inl ⟨[Event.progressInit, Event.statusInit]
              ++ ((step1 pn env).1 ++ ((step2 pn region ts env).1
              ++ ((step3 pn tt env).1 ++ ((step4 pn sp sc env).1 ++ step5pre pn)))),
              arn, e5, ?_, hcp, hk5, ?_⟩))
            · exact NoCp.append (by rfl) (NoCp.append h1n (NoCp.append h2n
                (NoCp.append h3n (NoCp.append h4n (by rfl)))))
            · simp [create_pipeline, create_pipeline_body, emitOk,
                stepBind_of_ok h1, stepBind_of_ok h2o, stepBind_of_ok h3,
                stepBind_of_ok h4, h5]
          · refine Or.inr (Or.inr (Or.inr ⟨[Event.progressInit, Event.statusInit]
              ++ ((step1 pn env).1 ++ ((step2 pn region ts env).1
              ++ ((step3 pn tt env).1 ++ ((step4 pn sp sc env).1 ++ step5pre pn)))),
              arn, e5, ?_, hcp, hk5, ?_⟩))
            · exact NoCp.append (by rfl) (NoCp.append h1n (NoCp.append h2n
                (NoCp.append h3n (NoCp.append h4n (by rfl)))))
            · simp [create_pipeline, create_pipeline_body, emitOk,
                stepBind_of_ok h1, stepBind_of_ok h2o, stepBind_of_ok h3,
                stepBind_of_ok h4, h5]
      · refine Or.inl ⟨[Event.progressInit, Event.statusInit]
          ++ ((step1 pn env).1 ++ ((step2 pn region ts env).1
          ++ ((step3 pn tt env).1 ++ (step4 pn sp sc env).1))), e4, ?_, ?_⟩
        · simp [create_pipeline, create_pipeline_body, emitOk,
            stepBind_of_ok h1, stepBind_of_ok h2o, stepBind_of_ok h3,
            stepBind_of_exn h4]
        · exact NoCp.append (by rfl) (NoCp.append h1n (NoCp.append h2n
            (NoCp.append h3n h4n)))
    · refine Or.inl ⟨[Event.progressInit, Event.statusInit]
        ++ ((step1 pn env).1 ++ ((step2 pn region ts env).1
        ++ (step3 pn tt env).1)), e3, ?_, ?_⟩
      · simp [create_pipeline, create_pipeline_body, emitOk,
          stepBind_of_ok h1, stepBind_of_ok h2o, stepBind_of_exn h3]
      · exact NoCp.append (by rfl) (NoCp.append h1n (NoCp.append h2n h3n))
  · refine Or.inl ⟨[Event.progressInit, Event.statusInit] ++ (step1 pn env).1,
      e1, ?_, ?_⟩
    · simp [create_pipeline, create_pipeline_body, emitOk, stepBind_of_exn h1]
    · exact NoCp.append (by rfl) h1n

/-- Claim C9: `create_pipeline` always hands back a definite
`(success, message)` pair: a run either reports `(True, "Success")` or a
failure (`success = False`), and any exception escaping the provisioning
body is converted by the outer handler into `(False, str(e))` instead of
propagating to the caller. -/
theorem claim_C9 (pn tt sp : String) (sc : SourceConfig) (dt region : String)
    (ts : Nat) (env : CloudEnv) :
    ((create_pipeline pn tt sp sc dt region ts env).2 = (true, "Success") ∨
      ((create_pipeline pn tt sp sc dt region ts env).2).1 = false) ∧
    (∀ e, (create_pipeline_body pn tt sp sc dt region ts env).2 = StepOut.exn e →
      (create_pipeline pn tt sp sc dt region ts env).2 = (false, e.msg)) := by
  constructor
  · rcases create_pipeline_cases pn tt sp sc dt region ts env with
      ⟨tr, e, heq, _⟩ | ⟨pre, arn, _, _, heq⟩ | ⟨pre, arn, e, _, _, _, heq⟩ |
      ⟨pre, arn, e, _, _, _, heq⟩
    · right; rw [heq]
    · left; rw [heq]
    · right; rw [heq]
    · right; rw [heq]
  · intro e he
    unfold create_pipeline
    rcases hb : create_pipeline_body pn tt sp sc dt region ts env with ⟨tr, o⟩
    rw [hb] at he
    cases o with
    | ok r => simp at he
    | ret r => simp at he
    | exn e2 =>
        simp only [Prod.snd, StepOut.exn.injEq] at he
        subst he
        simp

/-- Witness for C9's exception clause: with a failing unguarded
`get_role`, the body raises and `create_pipeline` returns the raw
exception text as failure message. -/
theorem claim_C9_witness :
    (create_pipeline "demo-svc" "python-app" "CodeCommit"
        { repo_name := some "demo-svc", branch := some "main", create_repo := true }
        "S3 (Static)" "us-east-1" 7
        { envAllOk "arnP" "arnB" with
            get_build_role := Except.error ⟨ExcKind.generic, "boom"⟩ }).2
      = (false, "boom") :=
  (claim_C9 "demo-svc" "python-app" "CodeCommit"
    { repo_name := some "demo-svc", branch := some "main", create_repo := true }
    "S3 (Static)" "us-east-1" 7
    { envAllOk "arnP" "arnB" with
        get_build_role := Except.error ⟨ExcKind.generic, "boom"⟩ }).2
    ⟨ExcKind.generic, "boom"⟩ (by decide)

/-- Claim C1: if the final `cp_client.create_pipeline` call raises the
name-in-use condition, the run returns exactly
`(False, "Pipeline name already exists")` and the trace ends at that
call: from the (only) pipeline-creation call onward there is nothing
but the call itself — no further remote calls, progress updates or
steps. -/
theorem claim_C1 (pn tt sp : String) (sc : SourceConfig) (dt region : String)
    (ts : Nat) (env : CloudEnv) (e : Exc)
    (hcp : env.cp_create_pipeline = some e)
    (hk : e.kind = ExcKind.pipelineNameInUse)
    (hcall : ∃ v, Event.call (RemoteCall.cp_create_pipeline v) ∈
      (create_pipeline pn tt sp sc dt region ts env).1) :
    (create_pipeline pn tt sp sc dt region ts env).2
      = (false, "Pipeline name already exists") ∧
    ∃ arn, (create_pipeline pn tt sp sc dt region ts env).1.dropWhile
        (fun ev => !ev.isCpCreate)
      = [Event.call (RemoteCall.cp_create_pipeline
          (mkPipelineDecl pn arn (bucketNameOf pn ts) sc))] := by
  rcases create_pipeline_cases pn tt sp sc dt region ts env with
    ⟨tr, e1, heq, hn⟩ | ⟨pre, arn, hn, hcp0, heq⟩ |
    ⟨pre, arn, e1, hn, hcp1, hk1, heq⟩ | ⟨pre, arn, e1, hn, hcp1, hk1, heq⟩
  · obtain ⟨v, hv⟩ := hcall
    rw [heq] at hv
    exact absurd hv (hn.not_mem v)
  · rw [hcp0] at hcp; cases hcp
  · constructor
    · rw [heq]
    · refine ⟨arn, ?_⟩
      rw [heq]
      show (pre ++ [Event.call (RemoteCall.cp_create_pipeline
          (mkPipelineDecl pn arn (bucketNameOf pn ts) sc))]).dropWhile
        (fun ev => !ev.isCpCreate) = _
      rw [dropWhile_append_all hn]
      simp [List.dropWhile_cons, Event.isCpCreate]
  · rw [hcp1] at hcp
    injection hcp with h
    exact absurd (h ▸ hk) hk1

/-- Witness for C1: a concrete run in which everything succeeds except
the final creation call, which raises the name-in-use condition. -/
theorem claim_C1_witness :
    (create_pipeline "demo-svc" "python-app" "CodeCommit"
        { repo_name := some "demo-svc", branch := some "main", create_repo := true }
        "S3 (Static)" "us-east-1" 7
        { envAllOk "arnP" "arnB" with
            cp_create_pipeline := some ⟨ExcKind.pipelineNameInUse, "in use"⟩ }).2
      = (false, "Pipeline name already exists") ∧
    ∃ arn, (create_pipeline "demo-svc" "python-app" "CodeCommit"
        { repo_name := some "demo-svc", branch := some "main", create_repo := true }
        "S3 (Static)" "us-east-1" 7
        { envAllOk "arnP" "arnB" with
            cp_create_pipeline := some ⟨ExcKind.pipelineNameInUse, "in use"⟩ }).1.dropWhile
        (fun ev => !ev.isCpCreate)
      = [Event.call (RemoteCall.cp_create_pipeline
          (mkPipelineDecl "demo-svc" arn (bucketNameOf "demo-svc" 7)
            { repo_name := some "demo-svc", branch := some "main", create_repo := true }))] :=
  claim_C1 "demo-svc" "python-app" "CodeCommit"
    { repo_name := some "demo-svc", branch := some "main", create_repo := true }
    "S3 (Static)" "us-east-1" 7
    { envAllOk "arnP" "arnB" with
        cp_create_pipeline := some ⟨ExcKind.pipelineNameInUse, "in use"⟩ }
    ⟨ExcKind.pipelineNameInUse, "in use"⟩ (by decide) (by decide)
    ⟨mkPipelineDecl "demo-svc" "arnP" (bucketNameOf "demo-svc" 7)
      { repo_name := some "demo-svc", branch := some "main", create_repo := true },
     by decide⟩

/-- Claim C7: any pipeline definition passed to the final creation call
has exactly the two stages "Source" then "Build"; the single Build
action references the build project `<pipeline_name>-build` created in
step 3, and the artifact store is the S3 bucket named in the bucket
step. -/
theorem claim_C7 (pn tt sp : String) (sc : SourceConfig) (dt region : String)
    (ts : Nat) (env : CloudEnv) :
    ∀ v : PipelineDecl,
      Event.call (RemoteCall.cp_create_pipeline v) ∈
        (create_pipeline pn tt sp sc dt region ts env).1 →
      v.stages.map Stage.name = ["Source", "Build"] ∧
      v.stages.map (fun st => st.actions.map StageAction.configuration)
        = [[ActionConfiguration.sourceCfg sc.repo_name sc.branch false],
           [ActionConfiguration.buildCfg (pn ++ "-build")]] ∧
      v.artifactStore = { type := "S3", location := bucketNameOf pn ts } ∧
      v.name = pn := by
  intro v hv
  have hvm : v = mkPipelineDecl pn
      ((fun arn => arn) (match env.get_pipeline_role with
        | Except.ok a => a
        | Except.error _ => "")) (bucketNameOf pn ts) sc ∨
      ∃ arn, v = mkPipelineDecl pn arn (bucketNameOf pn ts) sc := by
    exact Or.inr (by
      rcases create_pipeline_cases pn tt sp sc dt region ts env with
        ⟨tr, e1, heq, hn⟩ | ⟨pre, arn, hn, hcp0, heq⟩ |
        ⟨pre, arn, e1, hn, hcp1, hk1, heq⟩ | ⟨pre, arn, e1, hn, hcp1, hk1, heq⟩
      · rw [heq] at hv
        exact absurd hv (hn.not_mem v)
      · rw [heq] at hv
        rcases List.mem_append.mp hv with h | h
        · exact absurd h (hn.not_mem v)
        · rcases List.mem_cons.mp h with h | h
          · refine ⟨arn, ?_⟩
            simpa using h
          · exact absurd h (NoCp.not_mem (by rfl) v)
      · rw [heq] at hv
        rcases List.mem_append.mp hv with h | h
        · exact absurd h (hn.not_mem v)
        · refine ⟨arn, ?_⟩
          simpa using List.mem_singleton.mp h
      · rw [heq] at hv
        rcases List.mem_append.mp hv with h | h
        · exact absurd h (hn.not_mem v)
        · refine ⟨arn, ?_⟩
          simpa using List.mem_singleton.mp h)
  rcases hvm with hvm | ⟨arn, hvm⟩ <;>
    subst hvm <;>
    refine ⟨by simp [mkPipelineDecl, mkStages], by simp [mkPipelineDecl, mkStages],
      rfl, rfl⟩

/-- Witness for C7: the payload of the creation call of a concrete
successful run satisfies the stated stage and artifact-store shape. -/
theorem claim_C7_witness :
    (mkPipelineDecl "demo-svc" "arnP" (bucketNameOf "demo-svc" 7)
        { repo_name := some "demo-svc", branch := some "main",
          create_repo := true }).stages.map Stage.name = ["Source", "Build"] ∧
    ((mkPipelineDecl "demo-svc" "arnP" (bucketNameOf "demo-svc" 7)
        { repo_name := some "demo-svc", branch := some "main",
          create_repo := true }).stages.map
        (fun st => st.actions.map StageAction.configuration))
      = [[ActionConfiguration.sourceCfg (some "demo-svc") (some "main") false],
         [ActionConfiguration.buildCfg ("demo-svc" ++ "-build")]] ∧
    (mkPipelineDecl "demo-svc" "arnP" (bucketNameOf "demo-svc" 7)
        { repo_name := some "demo-svc", branch := some "main",
          create_repo := true }).artifactStore
      = { type := "S3", location := bucketNameOf "demo-svc" 7 } ∧
    (mkPipelineDecl "demo-svc" "arnP" (bucketNameOf "demo-svc" 7)
        { repo_name := some "demo-svc", branch := some "main",
          create_repo := true }).name = "demo-svc" :=
  claim_C7 "demo-svc" "python-app" "CodeCommit"
    { repo_name := some "demo-svc", branch := some "main", create_repo := true }
    "S3 (Static)" "us-east-1" 7 (envAllOk "arnP" "arnB")
    (mkPipelineDecl "demo-svc" "arnP" (bucketNameOf "demo-svc" 7)
      { repo_name := some "demo-svc", branch := some "main", create_repo := true })
    (by decide)

/-- Step 1 continues normally whenever its two IAM calls only fail, if
at all, with the tolerated already-exists condition. -/
theorem step1_ok (pn : String) (env : CloudEnv)
    (h1 : tolerated ExcKind.entityAlreadyExists env.create_pipeline_role)
    (h2 : tolerated ExcKind.entityAlreadyExists env.attach_pipeline_policy) :
    (step1 pn env).2 = StepOut.ok () := by
  unfold step1
  rcases hc1 : env.create_pipeline_role with _ | e1
  · rcases hc2 : env.attach_pipeline_policy with _ | e2
    · simp [emitOk, remote]
    · rw [hc2] at h2
      have h2k : e2.kind = ExcKind.entityAlreadyExists := h2
      simp [emitOk, remote, tryCatch, passOn, h2k]
  · rw [hc1] at h1
    have h1k : e1.kind = ExcKind.entityAlreadyExists := h1
    simp [emitOk, remote, tryCatch, passOn, h1k]

/-- The bucket-creation call, with the timestamped name, is always in
the step-2 trace, whatever the environment does. -/
theorem step2_mem (pn region : String) (ts : Nat) (env : CloudEnv) :
    Event.call (RemoteCall.s3_create_bucket (bucketNameOf pn ts)
      (if region = "us-east-1" then none else some region)) ∈
      (step2 pn region ts env).1 := by
  unfold step2
  rcases h1 : env.create_bucket with _ | e1
  · rcases h2 : env.put_bucket_versioning with _ | e2 <;>
      simp [emitOk, remote, tryCatch, passAll]
  · simp [emitOk, remote, tryCatch, passAll]

/-- When the bucket creation succeeds the step-2 trace is exactly the
status text, the two S3 calls back to back, and the progress update —
whatever the versioning call does. -/
theorem step2_trace_none (pn region : String) (ts : Nat) (env : CloudEnv)
    (hcb : env.create_bucket = none) :
    (step2 pn region ts env).1
      = [Event.statusText "2/5: Creating artifact bucket...",
         Event.call (RemoteCall.s3_create_bucket (bucketNameOf pn ts)
           (if region = "us-east-1" then none else some region)),
         Event.call (RemoteCall.s3_put_bucket_versioning (bucketNameOf pn ts)
           "Enabled"),
         Event.progressUpd 40] := by
  unfold step2
  rcases h2 : env.put_bucket_versioning with _ | e2 <;>
    simp [emitOk, remote, tryCatch, passAll, hcb, h2]

/-- Claim C8: provided the preceding role step only meets tolerated
already-exists conditions, the artifact-bucket step always issues its
creation call for the bucket named
`<pipeline_name>-artifacts-<timestamp>`, and whenever that creation
succeeds it is immediately followed (in order) by the
enable-versioning call on the same bucket. -/
theorem claim_C8 (pn tt sp : String) (sc : SourceConfig) (dt region : String)
    (ts : Nat) (env : CloudEnv)
    (h1 : tolerated ExcKind.entityAlreadyExists env.create_pipeline_role)
    (h2 : tolerated ExcKind.entityAlreadyExists env.attach_pipeline_policy) :
    Event.call (RemoteCall.s3_create_bucket (bucketNameOf pn ts)
        (if region = "us-east-1" then none else some region)) ∈
      (create_pipeline pn tt sp sc dt region ts env).1 ∧
    (env.create_bucket = none →
      List.Sublist
        [Event.call (RemoteCall.s3_create_bucket (bucketNameOf pn ts)
            (if region = "us-east-1" then none else some region)),
         Event.call (RemoteCall.s3_put_bucket_versioning (bucketNameOf pn ts)
            "Enabled")]
        (create_pipeline pn tt sp sc dt region ts env).1) := by
  have hb : (create_pipeline pn tt sp sc dt region ts env).1
      = [Event.progressInit, Event.statusInit] ++ ((step1 pn env).1
        ++ ((step2 pn region ts env).1
        ++ (stepBind (step3 pn tt env) (fun _ =>
            stepBind (step4 pn sp sc env) (fun _ =>
            step5 pn sc (bucketNameOf pn ts) env))).1)) := by
    rw [create_pipeline_fst]
    unfold create_pipeline_body
    simp [emitOk, stepBind_of_ok (step1_ok pn env h1 h2),
      stepBind_of_ok (step2_shape pn region ts env).1]
  constructor
  · rw [hb]
    exact List.mem_append_right _ (List.mem_append_right _
      (List.mem_append_left _ (step2_mem pn region ts env)))
  · intro hcb
    rw [hb, step2_trace_none pn region ts env hcb]
    refine List.Sublist.trans ?_ (List.sublist_append_right _ _)
    refine List.Sublist.trans ?_ (List.sublist_append_right _ _)
    show List.Sublist _ (Event.statusText "2/5: Creating artifact bucket..."
      :: (Event.call (RemoteCall.s3_create_bucket (bucketNameOf pn ts)
            (if region = "us-east-1" then none else some region))
        :: Event.call (RemoteCall.s3_put_bucket_versioning (bucketNameOf pn ts)
            "Enabled")
        :: Event.progressUpd 40
        :: (stepBind (step3 pn tt env) (fun _ =>
            stepBind (step4 pn sp sc env) (fun _ =>
            step5 pn sc (bucketNameOf pn ts) env))).1))
    exact List.Sublist.cons _ (List.Sublist.cons₂ _ (List.Sublist.cons₂ _
      (List.nil_sublist _)))

/-- Witness for C8: a concrete all-success run issues the bucket
creation call and the versioning call right after it. -/
theorem claim_C8_witness :
    Event.call (RemoteCall.s3_create_bucket (bucketNameOf "demo-svc" 7)
        (if "eu-west-1" = "us-east-1" then none else some "eu-west-1")) ∈
      (create_pipeline "demo-svc" "python-app" "CodeCommit"
        { repo_name := some "demo-svc", branch := some "main", create_repo := true }
        "S3 (Static)" "eu-west-1" 7 (envAllOk "arnP" "arnB")).1 ∧
    List.Sublist
      [Event.call (RemoteCall.s3_create_bucket (bucketNameOf "demo-svc" 7)
          (if "eu-west-1" = "us-east-1" then none else some "eu-west-1")),
       Event.call (RemoteCall.s3_put_bucket_versioning (bucketNameOf "demo-svc" 7)
          "Enabled")]
      (create_pipeline "demo-svc" "python-app" "CodeCommit"
        { repo_name := some "demo-svc", branch := some "main", create_repo := true }
        "S3 (Static)" "eu-west-1" 7 (envAllOk "arnP" "arnB")).1 :=
  ⟨(claim_C8 "demo-svc" "python-app" "CodeCommit"
      { repo_name := some "demo-svc", branch := some "main", create_repo := true }
      "S3 (Static)" "eu-west-1" 7 (envAllOk "arnP" "arnB") trivial trivial).1,
   (claim_C8 "demo-svc" "python-app" "CodeCommit"
      { repo_name := some "demo-svc", branch := some "main", create_repo := true }
      "S3 (Static)" "eu-west-1" 7 (envAllOk "arnP" "arnB") trivial trivial).2 rfl⟩

/-- Counterexample to C5 as stated: the artifact-bucket step is guarded
by a bare `except Exception: pass`, so a generic exception there (e.g.
an access denial — neither an already-exists kind nor the final
name-in-use condition) is silently swallowed: the run still returns
`(True, "Success")` instead of a failure carrying the exception text. -/
theorem claim_C5_counterexample :
    (create_pipeline "demo-svc" "python-app" "CodeCommit"
        { repo_name := some "demo-svc", branch := some "main", create_repo := true }
        "S3 (Static)" "us-east-1" 0
        { envAllOk "arnP" "arnB" with
            create_bucket := some ⟨ExcKind.generic, "AccessDenied"⟩ }).2
      = (true, "Success") := by
  decide

/-- Claim C5 (amended): every exception raised by an individual
provisioning step other than the artifact-bucket step — whose handler
swallows every exception — and other than the tolerated already-exists
kinds and the final name-in-use condition, makes `create_pipeline`
return `(False, str(e))`.  The nine conjuncts cover, in program order:
pipeline-role creation, pipeline-policy attachment, build-role
creation, build-policy attachment, the unguarded build-role `get_role`,
build-project creation, repository creation, the unguarded
pipeline-role `get_role`, and the final pipeline-creation call. -/
theorem claim_C5 :
    (∀ (pn tt sp : String) (sc : SourceConfig) (dt region : String) (ts : Nat)
        (arnP arnB : String) (e : Exc),
      e.kind ≠ ExcKind.entityAlreadyExists →
      (create_pipeline pn tt sp sc dt region ts
        { envAllOk arnP arnB with create_pipeline_role := some e }).2
        = (false, e.msg)) ∧
    (∀ (pn tt sp : String) (sc : SourceConfig) (dt region : String) (ts : Nat)
        (arnP arnB : String) (e : Exc),
      e.kind ≠ ExcKind.entityAlreadyExists →
      (create_pipeline pn tt sp sc dt region ts
        { envAllOk arnP arnB with attach_pipeline_policy := some e }).2
        = (false, e.msg)) ∧
    (∀ (pn tt sp : String) (sc : SourceConfig) (dt region : String) (ts : Nat)
        (arnP arnB : String) (e : Exc),
      e.kind ≠ ExcKind.entityAlreadyExists →
      (create_pipeline pn tt sp sc dt region ts
        { envAllOk arnP arnB with create_build_role := some e }).2
        = (false, e.msg)) ∧
    (∀ (pn tt sp : String) (sc : SourceConfig) (dt region : String) (ts : Nat)
        (arnP arnB : String) (e : Exc),
      e.kind ≠ ExcKind.entityAlreadyExists →
      (create_pipeline pn tt sp sc dt region ts
        { envAllOk arnP arnB with attach_build_policy := some e }).2
        = (false, e.msg)) ∧
    (∀ (pn tt sp : String) (sc : SourceConfig) (dt region : String) (ts : Nat)
        (arnP arnB : String) (e : Exc),
      (create_pipeline pn tt sp sc dt region ts
        { envAllOk arnP arnB with get_build_role := Except.error e }).2
        = (false, e.msg)) ∧
    (∀ (pn tt sp : String) (sc : SourceConfig) (dt region : String) (ts : Nat)
        (arnP arnB : String) (e : Exc),
      e.kind ≠ ExcKind.resourceAlreadyExists →
      (create_pipeline pn tt sp sc dt region ts
        { envAllOk arnP arnB with create_project := some e }).2
        = (false, e.msg)) ∧
    (∀ (pn tt : String) (sc : SourceConfig) (dt region : String) (ts : Nat)
        (arnP arnB : String) (e : Exc),
      sc.create_repo = true →
      e.kind ≠ ExcKind.repositoryNameExists →
      (create_pipeline pn tt "CodeCommit" sc dt region ts
        { envAllOk arnP arnB with create_repository := some e }).2
        = (false, e.msg)) ∧
    (∀ (pn tt sp : String) (sc : SourceConfig) (dt region : String) (ts : Nat)
        (arnP arnB : String) (e : Exc),
      (create_pipeline pn tt sp sc dt region ts
        { envAllOk arnP arnB with get_pipeline_role := Except.error e }).2
        = (false, e.msg)) ∧
    (∀ (pn tt sp : String) (sc : SourceConfig) (dt region : String) (ts : Nat)
        (arnP arnB : String) (e : Exc),
      e.kind ≠ ExcKind.pipelineNameInUse →
      (create_pipeline pn tt sp sc dt region ts
        { envAllOk arnP arnB with cp_create_pipeline := some e }).2
        = (false, e.msg)) := by
  refine ⟨?_, ?_, ?_, ?_, ?_, ?_, ?_, ?_, ?_⟩
  · intro pn tt sp sc dt region ts arnP arnB e hk
    simp [create_pipeline, create_pipeline_body, step1, step2, step3, step4, step5,
      envAllOk, emitOk, remote, remoteGet, tryCatch, passOn, passAll, returnOn, hk]
  · intro pn tt sp sc dt region ts arnP arnB e hk
    simp [create_pipeline, create_pipeline_body, step1, step2, step3, step4, step5,
      envAllOk, emitOk, remote, remoteGet, tryCatch, passOn, passAll, returnOn, hk]
  · intro pn tt sp sc dt region ts arnP arnB e hk
    simp [create_pipeline, create_pipeline_body, step1, step2, step3, step4, step5,
      envAllOk, emitOk, remote, remoteGet, tryCatch, passOn, passAll, returnOn, hk]
  · intro pn tt sp sc dt region ts arnP arnB e hk
    simp [create_pipeline, create_pipeline_body, step1, step2, step3, step4, step5,
      envAllOk, emitOk, remote, remoteGet, tryCatch, passOn, passAll, returnOn, hk]
  · intro pn tt sp sc dt region ts arnP arnB e
    simp [create_pipeline, create_pipeline_body, step1, step2, step3, step4, step5,
      envAllOk, emitOk, remote, remoteGet, tryCatch, passOn, passAll, returnOn]
  · intro pn tt sp sc dt region ts arnP arnB e hk
    simp [create_pipeline, create_pipeline_body, step1, step2, step3, step4, step5,
      envAllOk, emitOk, remote, remoteGet, tryCatch, passOn, passAll, returnOn, hk]
  · intro pn tt sc dt region ts arnP arnB e hrepo hk
    simp [create_pipeline, create_pipeline_body, step1, step2, step3, step4, step5,
      envAllOk, emitOk, remote, remoteGet, tryCatch, passOn, passAll, returnOn,
      hrepo, hk]
  · intro pn tt sp sc dt region ts arnP arnB e
    by_cases h4 : sp = "CodeCommit" ∧ sc.create_repo = true <;>
      simp [create_pipeline, create_pipeline_body, step1, step2, step3, step4, step5,
        envAllOk, emitOk, remote, remoteGet, tryCatch, passOn, passAll, returnOn, h4]
  · intro pn tt sp sc dt region ts arnP arnB e hk
    by_cases h4 : sp = "CodeCommit" ∧ sc.create_repo = true <;>
      simp [create_pipeline, create_pipeline_body, step1, step2, step3, step4, step5,
        envAllOk, emitOk, remote, remoteGet, tryCatch, passOn, passAll, returnOn,
        h4, hk]

/-- Witness for C5 (amended): each of the nine fatal sites, exercised
with a concrete generic exception, yields the raw text as the failure
message. -/
theorem claim_C5_witness :
    (create_pipeline "p" "t" "s"
        { repo_name := none, branch := none, create_repo := false } "d" "r" 0
      { envAllOk "a" "b" with
          create_pipeline_role := some ⟨ExcKind.generic, "x1"⟩ }).2 = (false, "x1") ∧
    (create_pipeline "p" "t" "s"
        { repo_name := none, branch := none, create_repo := false } "d" "r" 0
      { envAllOk "a" "b" with
          attach_pipeline_policy := some ⟨ExcKind.generic, "x2"⟩ }).2 = (false, "x2") ∧
    (create_pipeline "p" "t" "s"
        { repo_name := none, branch := none, create_repo := false } "d" "r" 0
      { envAllOk "a" "b" with
          create_build_role := some ⟨ExcKind.generic, "x3"⟩ }).2 = (false, "x3") ∧
    (create_pipeline "p" "t" "s"
        { repo_name := none, branch := none, create_repo := false } "d" "r" 0
      { envAllOk "a" "b" with
          attach_build_policy := some ⟨ExcKind.generic, "x4"⟩ }).2 = (false, "x4") ∧
    (create_pipeline "p" "t" "s"
        { repo_name := none, branch := none, create_repo := false } "d" "r" 0
      { envAllOk "a" "b" with
          get_build_role := Except.error ⟨ExcKind.generic, "x5"⟩ }).2 = (false, "x5") ∧
    (create_pipeline "p" "t" "s"
        { repo_name := none, branch := none, create_repo := false } "d" "r" 0
      { envAllOk "a" "b" with
          create_project := some ⟨ExcKind.generic, "x6"⟩ }).2 = (false, "x6") ∧
    (create_pipeline "p" "t" "CodeCommit"
        { repo_name := some "p", branch := some "m", create_repo := true } "d" "r" 0
      { envAllOk "a" "b" with
          create_repository := some ⟨ExcKind.generic, "x7"⟩ }).2 = (false, "x7") ∧
    (create_pipeline "p" "t" "s"
        { repo_name := none, branch := none, create_repo := false } "d" "r" 0
      { envAllOk "a" "b" with
          get_pipeline_role := Except.error ⟨ExcKind.generic, "x8"⟩ }).2 = (false, "x8") ∧
    (create_pipeline "p" "t" "s"
        { repo_name := none, branch := none, create_repo := false } "d" "r" 0
      { envAllOk "a" "b" with
          cp_create_pipeline := some ⟨ExcKind.generic, "x9"⟩ }).2 = (false, "x9") :=
  ⟨claim_C5.1 "p" "t" "s" _ "d" "r" 0 "a" "b" _ (by decide),
   claim_C5.2.1 "p" "t" "s" _ "d" "r" 0 "a" "b" _ (by decide),
   claim_C5.2.2.1 "p" "t" "s" _ "d" "r" 0 "a" "b" _ (by decide),
   claim_C5.2.2.2.1 "p" "t" "s" _ "d" "r" 0 "a" "b" _ (by decide),
   claim_C5.2.2.2.2.1 "p" "t" "s" _ "d" "r" 0 "a" "b" _,
   claim_C5.2.2.2.2.2.1 "p" "t" "s" _ "d" "r" 0 "a" "b" _ (by decide),
   claim_C5.2.2.2.2.2.2.1 "p" "t" _ "d" "r" 0 "a" "b" _ rfl (by decide),
   claim_C5.2.2.2.2.2.2.2.1 "p" "t" "s" _ "d" "r" 0 "a" "b" _,
   claim_C5.2.2.2.2.2.2.2.2 "p" "t" "s" _ "d" "r" 0 "a" "b" _ (by decide)⟩

/-- Claim C10: `get_buildspec` is total over all template strings; any
template outside the three keyed ones — including the advertised
"react-app", "java-spring" and "docker-app" — silently yields the
static-site buildspec. -/
theorem claim_C10 :
    (∀ template_type : String, template_type ≠ "python-app" →
      template_type ≠ "nodejs-api" → template_type ≠ "static-site" →
      get_buildspec template_type = buildspecStaticSite) ∧
    get_buildspec "react-app" = buildspecStaticSite ∧
    get_buildspec "java-spring" = buildspecStaticSite ∧
    get_buildspec "docker-app" = buildspecStaticSite := by
  refine ⟨?_, by decide, by decide, by decide⟩
  intro t h1 h2 h3
  have e1 : (t == "python-app") = false := beq_eq_false_iff_ne.mpr h1
  have e2 : (t == "nodejs-api") = false := beq_eq_false_iff_ne.mpr h2
  have e3 : (t == "static-site") = false := beq_eq_false_iff_ne.mpr h3
  simp [get_buildspec, buildspecs, List.lookup, e1, e2, e3]

/-- Witness for C10: the advertised template "react-app" has no keyed
buildspec and falls back to the static-site one. -/
theorem claim_C10_witness : get_buildspec "react-app" = buildspecStaticSite :=
  claim_C10.1 "react-app" (by decide) (by decide) (by decide)

/-- Claim C4: for the request (name "demo-svc", template "static-site",
new CodeCommit repository, no deploy target), with every remote call
succeeding, the run emits exactly the progress updates 20, 40, 60, 80,
100 in that order and returns `(True, "Success")`. -/
theorem claim_C4 (region : String) (ts : Nat) (arnPipeline arnBuild : String) :
    ((create_pipeline "demo-svc" "static-site" "CodeCommit"
        { repo_name := some "demo-svc", branch := some "main", create_repo := true }
        "None (Build only)" region ts (envAllOk arnPipeline arnBuild)).1.filterMap
        Event.progressValue = [20, 40, 60, 80, 100]) ∧
    (create_pipeline "demo-svc" "static-site" "CodeCommit"
        { repo_name := some "demo-svc", branch := some "main", create_repo := true }
        "None (Build only)" region ts (envAllOk arnPipeline arnBuild)).2
      = (true, "Success") := by
  constructor <;>
    simp [create_pipeline, create_pipeline_body, step1, step2, step3, step4, step5,
      envAllOk, emitOk, remote, remoteGet, bucketNameOf, Event.progressValue]

/-- Claim C6: a submission with source provider GitHub and an absent
(empty) access token is rejected by the form validation: no remote call
is made (the event trace is empty) and the outcome is a validation
error, so `create_pipeline` is never invoked. -/
theorem claim_C6 (pipeline_name template_type repo_name repo_url branch_name : String)
    (create_new : Bool) (deploy_target region : String) (ts : Nat) (env : CloudEnv) :
    (handle_submission pipeline_name template_type "GitHub" repo_name repo_url
        branch_name "" create_new deploy_target region ts env).1 = [] ∧
    ∃ m, (handle_submission pipeline_name template_type "GitHub" repo_name repo_url
        branch_name "" create_new deploy_target region ts env).2
      = SubmitOutcome.validationError m := by
  by_cases h : pipeline_name = "" <;> simp [handle_submission, h]

/-- Counterexample to C2 as stated: a Provisioning Request with a unique
pipeline name (the creation call succeeds, and is attempted exactly
once) whose source provider is GitHub.  The source-repository
prerequisite step is never attempted — the trace contains no
`create_repository` call — so "attempts all five prerequisite steps"
fails. -/
theorem claim_C2_counterexample :
    ((create_pipeline "demo-svc" "python-app" "GitHub"
        { repo_name := none, branch := some "main", create_repo := false }
        "None (Build only)" "us-east-1" 0 (envAllOk "arnP" "arnB")).1.any
          Event.isRepoCreate) = false ∧
    ((create_pipeline "demo-svc" "python-app" "GitHub"
        { repo_name := none, branch := some "main", create_repo := false }
        "None (Build only)" "us-east-1" 0 (envAllOk "arnP" "arnB")).1.filter
          Event.isCpCreate).length = 1 ∧
    (create_pipeline "demo-svc" "python-app" "GitHub"
        { repo_name := none, branch := some "main", create_repo := false }
        "None (Build only)" "us-east-1" 0 (envAllOk "arnP" "arnB")).2
      = (true, "Success") := by
  decide

/-- Claim C2 (amended): for a Provisioning Request that asks for a new
CodeCommit repository, with a unique pipeline name and no fatal remote
errors (all calls succeed), `create_pipeline` attempts all five
prerequisite steps — pipeline role, artifact bucket, build role, build
project, source repository — strictly before the pipeline-creation
call (they all lie in the creation-call-free prefix of the trace), and
attempts the pipeline-creation call exactly once.  For other source
providers the repository step is skipped (see the counterexample). -/
theorem claim_C2 (pn tt : String) (sc : SourceConfig) (dt region : String)
    (ts : Nat) (arnPipeline arnBuild : String) (hrepo : sc.create_repo = true) :
    ((create_pipeline pn tt "CodeCommit" sc dt region ts
        (envAllOk arnPipeline arnBuild)).1.filter Event.isCpCreate).length = 1 ∧
    Event.call (RemoteCall.iam_create_role (pn ++ "-pipeline-role")
        pipelineAssumeDoc) ∈
      (create_pipeline pn tt "CodeCommit" sc dt region ts
        (envAllOk arnPipeline arnBuild)).1.takeWhile (fun ev => !ev.isCpCreate) ∧
    Event.call (RemoteCall.s3_create_bucket (bucketNameOf pn ts)
        (if region = "us-east-1" then none else some region)) ∈
      (create_pipeline pn tt "CodeCommit" sc dt region ts
        (envAllOk arnPipeline arnBuild)).1.takeWhile (fun ev => !ev.isCpCreate) ∧
    Event.call (RemoteCall.iam_create_role (pn ++ "-build-role") buildAssumeDoc) ∈
      (create_pipeline pn tt "CodeCommit" sc dt region ts
        (envAllOk arnPipeline arnBuild)).1.takeWhile (fun ev => !ev.isCpCreate) ∧
    Event.call (RemoteCall.cb_create_project (pn ++ "-build")
        { type := "CODEPIPELINE", buildspec := get_buildspec tt }
        { type := "CODEPIPELINE" }
        { type := "LINUX_CONTAINER", image := "aws/codebuild/standard:7.0",
          computeType := "BUILD_GENERAL1_SMALL" } arnBuild) ∈
      (create_pipeline pn tt "CodeCommit" sc dt region ts
        (envAllOk arnPipeline arnBuild)).1.takeWhile (fun ev => !ev.isCpCreate) ∧
    Event.call (RemoteCall.codecommit_create_repository sc.repo_name
        ("Repository for " ++ pn)) ∈
      (create_pipeline pn tt "CodeCommit" sc dt region ts
        (envAllOk arnPipeline arnBuild)).1.takeWhile (fun ev => !ev.isCpCreate) := by
  refine ⟨?_, ?_, ?_, ?_, ?_, ?_⟩ <;>
    simp [create_pipeline, create_pipeline_body, step1, step2, step3, step4, step5,
      envAllOk, emitOk, remote, remoteGet, tryCatch, passOn, passAll, returnOn,
      bucketNameOf, mkPipelineDecl, mkStages, hrepo, Event.isCpCreate,
      List.takeWhile_cons]

/-- Witness for C2 (amended); concrete CodeCommit request with a new
repository, all remote calls succeeding. -/
theorem claim_C2_witness :
    ((create_pipeline "p" "t" "CodeCommit"
        { repo_name := some "p", branch := some "m", create_repo := true }
        "d" "r" 0 (envAllOk "a" "b")).1.filter Event.isCpCreate).length = 1 ∧
    Event.call (RemoteCall.iam_create_role ("p" ++ "-pipeline-role")
        pipelineAssumeDoc) ∈
      (create_pipeline "p" "t" "CodeCommit"
        { repo_name := some "p", branch := some "m", create_repo := true }
        "d" "r" 0 (envAllOk "a" "b")).1.takeWhile (fun ev => !ev.isCpCreate) ∧
    Event.call (RemoteCall.s3_create_bucket (bucketNameOf "p" 0)
        (if "r" = "us-east-1" then none else some "r")) ∈
      (create_pipeline "p" "t" "CodeCommit"
        { repo_name := some "p", branch := some "m", create_repo := true }
        "d" "r" 0 (envAllOk "a" "b")).1.takeWhile (fun ev => !ev.isCpCreate) ∧
    Event.call (RemoteCall.iam_create_role ("p" ++ "-build-role") buildAssumeDoc) ∈
      (create_pipeline "p" "t" "CodeCommit"
        { repo_name := some "p", branch := some "m", create_repo := true }
        "d" "r" 0 (envAllOk "a" "b")).1.takeWhile (fun ev => !ev.isCpCreate) ∧
    Event.call (RemoteCall.cb_create_project ("p" ++ "-build")
        { type := "CODEPIPELINE", buildspec := get_buildspec "t" }
        { type := "CODEPIPELINE" }
        { type := "LINUX_CONTAINER", image := "aws/codebuild/standard:7.0",
          computeType := "BUILD_GENERAL1_SMALL" } "b") ∈
      (create_pipeline "p" "t" "CodeCommit"
        { repo_name := some "p", branch := some "m", create_repo := true }
        "d" "r" 0 (envAllOk "a" "b")).1.takeWhile (fun ev => !ev.isCpCreate) ∧
    Event.call (RemoteCall.codecommit_create_repository (some "p")
        ("Repository for " ++ "p")) ∈
      (create_pipeline "p" "t" "CodeCommit"
        { repo_name := some "p", branch := some "m", create_repo := true }
        "d" "r" 0 (envAllOk "a" "b")).1.takeWhile (fun ev => !ev.isCpCreate) :=
  claim_C2 "p" "t" { repo_name := some "p", branch := some "m", create_repo := true }
    "d" "r" 0 "a" "b" rfl

/-- Claim C3: when the pipeline-role creation raises
`EntityAlreadyExistsException` (any message) and every other call
succeeds, `create_pipeline` does not abort: the artifact-bucket creation
is still attempted and the run still returns `(True, "Success")`. -/
theorem claim_C3 (pipeline_name template_type source_provider : String)
    (source_config : SourceConfig) (deploy_target region : String) (ts : Nat)
    (msg arnPipeline arnBuild : String) :
    ((create_pipeline pipeline_name template_type source_provider source_config
        deploy_target region ts
        { envAllOk arnPipeline arnBuild with
            create_pipeline_role := some ⟨ExcKind.entityAlreadyExists, msg⟩ }).2
      = (true, "Success")) ∧
    Event.call (RemoteCall.s3_create_bucket (bucketNameOf pipeline_name ts)
        (if region = "us-east-1" then none else some region)) ∈
      (create_pipeline pipeline_name template_type source_provider source_config
        deploy_target region ts
        { envAllOk arnPipeline arnBuild with
            create_pipeline_role := some ⟨ExcKind.entityAlreadyExists, msg⟩ }).1 := by
  by_cases h4 : source_provider = "CodeCommit" ∧ source_config.create_repo = true <;>
    constructor <;>
      simp [create_pipeline, create_pipeline_body, step1, step2, step3, step4, step5,
        envAllOk, emitOk, remote, remoteGet, tryCatch, passOn, passAll, returnOn,
        bucketNameOf, h4]

end CICD
